import Mathlib

/-!
Shallow embedding of the core pipeline of the Email-Marketing backend
(src/utils/scraper.py, src/utils/gmail_service.py,
src/utils/gemini_service.py and the campaign endpoint of
src/routes/routes.py), together with theorems settling the
specification claims about it.

Python strings are modelled as Lean `String`/`List Char`, dictionaries
of fixed shape as structures, `None`-able values as `Option`, and
raised exceptions as `Except`/explicit failure constructors.  External
collaborators (the HTTP client, the Gmail API, the Gemini model,
`json.loads`) are parameters of the embedded functions, so theorems
quantify over every possible behaviour of those collaborators.
-/

/-! ## Python string primitives used by the source -/

/-- ASCII whitespace as stripped by Python str.strip (the unicode
extras are not exercised by this codebase). -/
def pyIsSpace (c : Char) : Bool :=
  c = ' ' || c = '\t' || c = '\n' || c = '\r' || c = '\x0b' || c = '\x0c'

/-- Python str.strip on a character list: drop whitespace from both ends. -/
def stripL (cs : List Char) : List Char :=
  ((cs.dropWhile pyIsSpace).reverse.dropWhile pyIsSpace).reverse

/-- Python str.strip. -/
def pyStrip (s : String) : String := String.mk (stripL s.toList)

/-- The character list of "http://". -/
def httpPre : List Char := "http://".toList

/-- The character list of "https://". -/
def httpsPre : List Char := "https://".toList

/-- A character ending the netloc component of a parsed address. -/
def netlocEnd (c : Char) : Bool := c = '/' || c = '?' || c = '#'

/-- urllib.parse.urlparse netloc for addresses of the http:// or
https:// form: the segment after the double slash up to the first
slash, question mark or hash.  The callers below only ever parse
strings carrying one of the two prefixes, so other shapes yield the
empty netloc. -/
def urlparseNetloc (cs : List Char) : List Char :=
  if httpPre.isPrefixOf cs then (cs.drop 7).takeWhile (fun c => !netlocEnd c)
  else if httpsPre.isPrefixOf cs then (cs.drop 8).takeWhile (fun c => !netlocEnd c)
  else []

/-- urlparse raises ValueError on a bracket-unbalanced netloc
(Invalid IPv6 URL); the source wraps the parse in try/except and
returns None in that case. -/
def netlocBracketBad (nl : List Char) : Bool :=
  (nl.contains '[' && !nl.contains ']') || (nl.contains ']' && !nl.contains '[')

/-- WebScraperService._clean_url (scraper.py lines 117-137): strip the
input, reject the empty string, default the scheme to https when no
http:// or https:// prefix is present, and validate that the parsed
address has a non-empty host; parse errors and empty hosts yield None. -/
def _clean_url (url : String) : Option String :=
  let s := stripL url.toList
  if s = [] then none
  else
    let s2 := if httpPre.isPrefixOf s || httpsPre.isPrefixOf s then s
              else httpsPre ++ s
    let nl := urlparseNetloc s2
    if netlocBracketBad nl then none
    else if nl = [] then none
    else some (String.mk s2)

/-! ## Lemmas about stripping -/

theorem dropWhile_head_pred {p : Char → Bool} :
    ∀ {l : List Char} {a : Char}, (l.dropWhile p).head? = some a → p a = false := by
  intro l
  induction l with
  | nil => intro a h; simp [List.dropWhile] at h
  | cons c t ih =>
    intro a h
    by_cases hc : p c
    · rw [List.dropWhile_cons, if_pos hc] at h
      exact ih h
    · rw [List.dropWhile_cons, if_neg hc] at h
      simp only [List.head?_cons, Option.some.injEq] at h
      rw [← h]
      exact Bool.of_not_eq_true hc

theorem dropWhile_of_head_false {p : Char → Bool} {l : List Char}
    (h : ∀ a, l.head? = some a → p a = false) : l.dropWhile p = l := by
  cases l with
  | nil => rfl
  | cons c t =>
    have hc : p c = false := h c rfl
    rw [List.dropWhile_cons, if_neg (by simp [hc])]

theorem dropWhile_getLast_of_ne_nil {p : Char → Bool} :
    ∀ {l : List Char}, l.dropWhile p ≠ [] → (l.dropWhile p).getLast? = l.getLast? := by
  intro l
  induction l with
  | nil => intro h; simp [List.dropWhile] at h
  | cons c t ih =>
    intro h
    by_cases hc : p c
    · rw [List.dropWhile_cons, if_pos hc] at h ⊢
      have ht : t ≠ [] := by
        intro he
        rw [he] at h
        exact h rfl
      rw [ih h]
      cases t with
      | nil => exact absurd rfl ht
      | cons b u => rw [List.getLast?_cons_cons]
    · rw [List.dropWhile_cons, if_neg hc]

/-- A nonempty strip result starts with a non-whitespace character. -/
theorem stripL_head {l : List Char} {a : Char}
    (h : (stripL l).head? = some a) : pyIsSpace a = false := by
  unfold stripL at h
  rw [List.head?_reverse] at h
  by_cases hnil : (l.dropWhile pyIsSpace).reverse.dropWhile pyIsSpace = []
  · rw [hnil] at h
    simp at h
  · rw [dropWhile_getLast_of_ne_nil hnil] at h
    rw [List.getLast?_reverse] at h
    exact dropWhile_head_pred h

/-- A nonempty strip result ends with a non-whitespace character. -/
theorem stripL_getLast {l : List Char} {a : Char}
    (h : (stripL l).getLast? = some a) : pyIsSpace a = false := by
  unfold stripL at h
  rw [List.getLast?_reverse] at h
  exact dropWhile_head_pred h

/-- Stripping an already-stripped-looking list (non-whitespace first
and last characters) is the identity. -/
theorem stripL_eq_self {l : List Char}
    (h1 : ∀ a, l.head? = some a → pyIsSpace a = false)
    (h2 : ∀ a, l.getLast? = some a → pyIsSpace a = false) :
    stripL l = l := by
  unfold stripL
  rw [dropWhile_of_head_false h1]
  have h3 : ∀ a, l.reverse.head? = some a → pyIsSpace a = false := by
    intro a ha
    rw [List.head?_reverse] at ha
    exact h2 a ha
  rw [dropWhile_of_head_false h3, List.reverse_reverse]

/-- Stripping is idempotent. -/
theorem stripL_stripL (l : List Char) : stripL (stripL l) = stripL l :=
  stripL_eq_self (fun _ h => stripL_head h) (fun _ h => stripL_getLast h)

theorem toList_mk (l : List Char) : (String.mk l).toList = l := rfl

/-! ## Claim C7: URL normalization idempotence -/

theorem clean_url_some_fixed {u v : String} (h : _clean_url u = some v) :
    _clean_url v = some v := by
  unfold _clean_url at h
  set s := stripL u.toList with hs
  by_cases hnil : s = []
  · rw [if_pos hnil] at h
    exact absurd h (by simp)
  rw [if_neg hnil] at h
  set s2 := if httpPre.isPrefixOf s || httpsPre.isPrefixOf s then s else httpsPre ++ s
    with hs2
  by_cases hbr : netlocBracketBad (urlparseNetloc s2)
  · rw [if_pos hbr] at h
    exact absurd h (by simp)
  rw [if_neg hbr] at h
  by_cases hnl : urlparseNetloc s2 = []
  · rw [if_pos hnl] at h
    exact absurd h (by simp)
  rw [if_neg hnl] at h
  have hv : v = String.mk s2 := by
    have := h
    simp only [Option.some.injEq] at this
    exact this.symm
  -- s2 is strip-fixed: its head is non-whitespace and its last char is
  -- the last char of the nonempty strip result s.
  have hs2ne : s2 ≠ [] := by
    rw [hs2]
    by_cases hp : httpPre.isPrefixOf s || httpsPre.isPrefixOf s
    · rw [if_pos hp]; exact hnil
    · rw [if_neg hp]
      simp [httpsPre]
  have hhead : ∀ a, s2.head? = some a → pyIsSpace a = false := by
    intro a ha
    rw [hs2] at ha
    by_cases hp : httpPre.isPrefixOf s || httpsPre.isPrefixOf s
    · rw [if_pos hp] at ha
      exact stripL_head (hs ▸ ha)
    · rw [if_neg hp] at ha
      simp only [httpsPre] at ha
      simp at ha
      rw [← ha]
      rfl
  have hlast : ∀ a, s2.getLast? = some a → pyIsSpace a = false := by
    intro a ha
    rw [hs2] at ha
    by_cases hp : httpPre.isPrefixOf s || httpsPre.isPrefixOf s
    · rw [if_pos hp] at ha
      exact stripL_getLast (hs ▸ ha)
    · rw [if_neg hp] at ha
      rw [List.getLast?_append_of_ne_nil _ hnil] at ha
      exact stripL_getLast (hs ▸ ha)
  have hfix : stripL s2 = s2 := stripL_eq_self hhead hlast
  -- s2 carries one of the two scheme prefixes.
  have hpre : (httpPre.isPrefixOf s2 || httpsPre.isPrefixOf s2) = true := by
    rw [hs2]
    by_cases hp : httpPre.isPrefixOf s || httpsPre.isPrefixOf s
    · rw [if_pos hp]
      exact hp
    · rw [if_neg hp]
      have : httpsPre.isPrefixOf (httpsPre ++ s) = true := by
        rw [List.isPrefixOf_iff_prefix]
        exact List.prefix_append httpsPre s
      simp [this]
  -- Second normalization pass returns s2 unchanged.
  unfold _clean_url
  rw [hv, toList_mk, hfix, if_neg hs2ne, if_pos hpre, if_neg hbr, if_neg hnl]

/-- Claim C7: URL normalization (_clean_url) is idempotent — for every
string u, normalizing twice equals normalizing once (an invalid input
yields the absent value, which propagates) — and normalizing
"example.com" yields "https://example.com". -/
theorem C7_clean_url_idempotent :
    (∀ u : String, (_clean_url u).bind _clean_url = _clean_url u) ∧
    _clean_url "example.com" = some "https://example.com" := by
  constructor
  · intro u
    cases h : _clean_url u with
    | none => rfl
    | some v =>
      rw [Option.some_bind]
      exact clean_url_some_fixed h
  · decide

/-! ## Parsed-document model

BeautifulSoup parse trees are modelled as flat lists of elements; each
element carries its tag, attributes and its own visible text.  get_text
on the whole document concatenates the element texts in order; get_text
on one element returns that element's text.  decompose removes elements
from the shared document. -/

structure Elem where
  tag : String
  attrs : List (String × String)
  text : String
deriving Repr, DecidableEq

/-- A parsed page. -/
abbrev Doc := List Elem

/-- soup.get_text(): all visible text, in document order. -/
def docText (d : Doc) : String := String.join (d.map (·.text))

/-- Python lowercasing (ASCII; the source only tests ASCII needles). -/
def pyLower (s : String) : String := String.mk (s.toList.map Char.toLower)

/-- Python substring membership on character lists. -/
def hasInfixL (sub : List Char) : List Char → Bool
  | [] => sub.isPrefixOf []
  | c :: t => sub.isPrefixOf (c :: t) || hasInfixL sub t

/-- Python `sub in hay` on strings. -/
def hasInfixS (hay sub : String) : Bool := hasInfixL sub.toList hay.toList

/-- Python str.split(sep) on character lists (sep non-empty), fuelled
by the input length. -/
def splitOnLAux (sep : List Char) : Nat → List Char → List Char → List (List Char)
  | 0, acc, _ => [acc.reverse]
  | _ + 1, acc, [] => [acc.reverse]
  | fuel + 1, acc, c :: rest =>
      if sep.isPrefixOf (c :: rest) then
        acc.reverse :: splitOnLAux sep fuel [] ((c :: rest).drop sep.length)
      else
        splitOnLAux sep fuel (c :: acc) rest

/-- Python str.split(sep) (sep non-empty). -/
def splitOnL (sep cs : List Char) : List (List Char) :=
  splitOnLAux sep (cs.length + 1) [] cs

/-- list(set(xs)) followed by list use: deduplicated.  CPython iterates
a set in unspecified hash order; first-occurrence order stands in for
it here (no claim depends on the order of a deduplicated list). -/
def pySetList (xs : List String) : List String := xs.eraseDups

/-- Attribute lookup on an element. -/
def attrOf (e : Elem) (k : String) : Option String := e.attrs.lookup k

/-! ## Extractor functions (scraper.py lines 139-266) -/

/-- soup.find('meta', attrs={key: val}). -/
def findMeta (d : Doc) (key val : String) : Option Elem :=
  d.find? (fun e => e.tag == "meta" && attrOf e key == some val)

/-- WebScraperService._extract_title (lines 139-142). -/
def _extract_title (d : Doc) : String :=
  match d.find? (fun e => e.tag == "title") with
  | some e => pyStrip e.text
  | none => ""

/-- WebScraperService._extract_description (lines 144-148). -/
def _extract_description (d : Doc) : String :=
  match (findMeta d "name" "description").orElse
      (fun _ => findMeta d "property" "og:description") with
  | some e => pyStrip ((attrOf e "content").getD "")
  | none => ""

/-- WebScraperService._extract_keywords (lines 150-155). -/
def _extract_keywords (d : Doc) : List String :=
  match findMeta d "name" "keywords" with
  | some e =>
      ((splitOnL [','] ((attrOf e "content").getD "").toList).map
        (fun k => String.mk (stripL k))).filter (fun k => k ≠ "")
  | none => []

/-- WebScraperService._extract_headings (lines 157-164): for levels
1-6, up to five stripped heading texts, omitting empty levels. -/
def _extract_headings (d : Doc) : List (String × List String) :=
  (List.range 6).filterMap (fun i =>
    let tag := "h" ++ toString (i + 1)
    let hs := d.filter (fun e => e.tag == tag)
    if hs.isEmpty then none
    else some (tag, (hs.take 5).map (fun e => pyStrip e.text)))

/-- Tags decomposed (removed from the shared soup) by
_extract_main_content. -/
def nonContentTag (t : String) : Bool :=
  t == "script" || t == "style" || t == "nav" || t == "header" || t == "footer"

/-- class_=re.compile(r'content|main', re.I): the class attribute
matches the pattern anywhere, case-insensitively. -/
def classMatchesContentMain (e : Elem) : Bool :=
  match attrOf e "class" with
  | some c =>
      let lc := pyLower c
      hasInfixS lc "content" || hasInfixS lc "main"
  | none => false

/-- The whitespace clean-up of _extract_main_content lines 180-184:
strip each line, re-split on double spaces, join the non-empty chunks
with single spaces and truncate to 2000 characters.  splitlines is
modelled as splitting on the newline character (the only line break
produced by the modelled texts). -/
def mainContentClean (t : String) : String :=
  let lines := (splitOnL ['\n'] t.toList).map stripL
  let chunks := (lines.map (fun l => (splitOnL [' ', ' '] l).map stripL)).flatten
  let text := List.intercalate [' '] (chunks.filter (fun c => c ≠ []))
  String.mk (text.take 2000)

/-- WebScraperService._extract_main_content (lines 166-185).  It first
DECOMPOSES every script/style/nav/header/footer element — a mutation
of the shared soup — and then reads main, article, a content/main
classed div, or body.  The mutated document is returned alongside the
extracted text. -/
def _extract_main_content (d : Doc) : String × Doc :=
  let d2 := d.filter (fun e => !nonContentTag e.tag)
  let found := (d2.find? (fun e => e.tag == "main")).orElse (fun _ =>
    (d2.find? (fun e => e.tag == "article")).orElse (fun _ =>
    (d2.find? (fun e => e.tag == "div" && classMatchesContentMain e)).orElse (fun _ =>
    d2.find? (fun e => e.tag == "body"))))
  match found with
  | some e => (mainContentClean e.text, d2)
  | none => ("", d2)

/-- Social domains allowlist (lines 206-207). -/
def socialDomains : List String :=
  ["facebook.com", "twitter.com", "linkedin.com", "instagram.com",
   "youtube.com", "tiktok.com", "pinterest.com"]

/-- WebScraperService._extract_social_links (lines 204-215). -/
def _extract_social_links (d : Doc) : List String :=
  let links := (d.filter (fun e => e.tag == "a" && (attrOf e "href").isSome)).filterMap
    (fun e =>
      let href := (attrOf e "href").getD ""
      if socialDomains.any (fun dom => hasInfixS (pyLower href) dom) then some href
      else none)
  (pySetList links).take 10

/-- Minimal model of a json.loads result: a flat JSON object with
string values, or any other JSON value. -/
inductive PyJson where
  | obj (entries : List (String × String))
  | other
deriving Repr, DecidableEq

/-- The business_info dict (lines 217-242): keys are set only on the
paths that assign them; absent keys are none/false here. -/
structure BusinessInfo where
  name : Option String
  description : Option String
  industry : Option String
  has_about_section : Bool
  has_services_section : Bool
deriving Repr, DecidableEq

/-- WebScraperService._extract_business_info (lines 217-242).
json.loads is an external collaborator: `jsonLoads` returns none when
it raises (the bare except swallows the failure). -/
def _extract_business_info (jsonLoads : String → Option PyJson) (d : Doc) : BusinessInfo :=
  let base : BusinessInfo := ⟨none, none, none, false, false⟩
  let b1 :=
    match d.find? (fun e => e.tag == "script" && attrOf e "type" == some "application/ld+json") with
    | some e =>
      match jsonLoads e.text with
      | some (.obj entries) =>
        if entries.lookup "@type" == some "Organization"
            || entries.lookup "@type" == some "LocalBusiness" then
          { base with
            name := some ((entries.lookup "name").getD "")
            description := some ((entries.lookup "description").getD "")
            industry := some ((entries.lookup "@type").getD "") }
        else base
      | _ => base
    | none => base
  let tl := pyLower (docText d)
  let b2 :=
    if ["about us", "our company", "our mission"].any (fun w => hasInfixS tl w) then
      { b1 with has_about_section := true }
    else b1
  if ["services", "products", "solutions"].any (fun w => hasInfixS tl w) then
    { b2 with has_services_section := true }
  else b2

/-- The elif chain of lines 250-259: the first matching framework name
inside a script src, if any. -/
def scriptTech (src : String) : Option String :=
  let s := pyLower src
  if hasInfixS s "jquery" then some "jQuery"
  else if hasInfixS s "react" then some "React"
  else if hasInfixS s "angular" then some "Angular"
  else if hasInfixS s "vue" then some "Vue.js"
  else none

/-- WebScraperService._extract_technologies (lines 244-266). -/
def _extract_technologies (d : Doc) : List String :=
  let fromScripts := (d.filter (fun e => e.tag == "script" && (attrOf e "src").isSome)).filterMap
    (fun e => scriptTech ((attrOf e "src").getD ""))
  let withGen :=
    match findMeta d "name" "generator" with
    | some g => fromScripts ++ [(attrOf g "content").getD ""]
    | none => fromScripts
  pySetList withGen

/-! ## The two contact-info regexes (scraper.py lines 187-202)

Pattern-specific backtracking matchers translated from the source
patterns, with Python re semantics: leftmost match, greedy quantifiers
with backtracking, and findall scanning for non-overlapping matches
left to right. -/

/-- re \d (the texts matched here are ASCII). -/
def isDigitCh (c : Char) : Bool := '0' ≤ c && c ≤ '9'

def isAsciiAlpha (c : Char) : Bool :=
  ('a' ≤ c && c ≤ 'z') || ('A' ≤ c && c ≤ 'Z')

/-- re \w for the \b boundary checks. -/
def isWordCh (c : Char) : Bool := isAsciiAlpha c || isDigitCh c || c = '_'

/-- \b between an optional previous character and an optional next
character: exactly one side is a word character. -/
def atBoundary (prev next : Option Char) : Bool :=
  (match prev with | some c => isWordCh c | none => false)
    ≠ (match next with | some c => isWordCh c | none => false)

/-- The character class [A-Za-z0-9._%+-] (email local part). -/
def isEmailLocalCh (c : Char) : Bool :=
  isAsciiAlpha c || isDigitCh c || c = '.' || c = '_' || c = '%' || c = '+' || c = '-'

/-- The character class [A-Za-z0-9.-] (email domain). -/
def isEmailDomainCh (c : Char) : Bool :=
  isAsciiAlpha c || isDigitCh c || c = '.' || c = '-'

/-- The character class [A-Z|a-z] (email tld; the source pattern
literally includes the pipe). -/
def isEmailTldCh (c : Char) : Bool := isAsciiAlpha c || c = '|'

/-- The character class [-.\s] (phone separators). -/
def isPhoneSepCh (c : Char) : Bool := c = '-' || c = '.' || pyIsSpace c

/-- Greedy splits for a `+` / bounded repetition: all ways to consume a
non-empty prefix of class characters, longest first (the backtracking
order of a greedy quantifier). -/
def greedySplits (p : Char → Bool) (cs : List Char) : List (List Char × List Char) :=
  let n := (cs.takeWhile p).length
  (List.range n).map (fun j => (cs.take (n - j), cs.drop (n - j)))

/-- Greedy splits with an upper repetition bound ({1,k}). -/
def greedySplitsAtMost (p : Char → Bool) (k : Nat) (cs : List Char) :
    List (List Char × List Char) :=
  let n := min (cs.takeWhile p).length k
  (List.range n).map (fun j => (cs.take (n - j), cs.drop (n - j)))

/-- An optional single character of a class: consume-it first (greedy
`?`), then skip. -/
def optSplits (p : Char → Bool) (cs : List Char) : List (List Char × List Char) :=
  match cs with
  | c :: t => if p c then [([c], t), ([], cs)] else [([], cs)]
  | [] => [([], [])]

/-- Exactly n characters of a class. -/
def exactSplit (p : Char → Bool) (n : Nat) (cs : List Char) :
    Option (List Char × List Char) :=
  let taken := cs.take n
  if taken.length = n && taken.all p then some (taken, cs.drop n) else none

/-- One attempt of the email pattern
\b[A-Za-z0-9._%+-]+@[A-Za-z0-9.-]+\.[A-Z|a-z]{2,}\b at a fixed
position, `prev` being the character before it. -/
def tryEmailAt (prev : Option Char) (cs : List Char) : Option (List Char × List Char) :=
  if atBoundary prev cs.head? then
    (greedySplits isEmailLocalCh cs).findSome? (fun lo =>
      match lo.2 with
      | '@' :: r2 =>
        (greedySplits isEmailDomainCh r2).findSome? (fun dm =>
          match dm.2 with
          | '.' :: r4 =>
            (greedySplits isEmailTldCh r4).findSome? (fun tl =>
              if tl.1.length < 2 then none
              else if atBoundary tl.1.getLast? tl.2.head? then
                some (lo.1 ++ '@' :: dm.1 ++ '.' :: tl.1, tl.2)
              else none)
          | _ => none)
      | _ => none)
  else none

/-- re.findall scan for the email pattern: try each position left to
right, emit non-overlapping matches, continue after each match. -/
def scanEmails : Option Char → List Char → Nat → List (List Char)
  | _, _, 0 => []
  | prev, cs, fuel + 1 =>
    match tryEmailAt prev cs with
    | some (m, rest) => m :: scanEmails m.getLast? rest fuel
    | none =>
      match cs with
      | [] => []
      | c :: t => scanEmails (some c) t fuel

/-- All email-pattern matches in a text (whole matches: the email
pattern has no capturing group, so findall returns these). -/
def emailMatches (s : String) : List String :=
  (scanEmails none s.toList (s.toList.length + 1)).map String.mk

/-- Candidates for the optional capturing group
(\+?\d{1,3}[-.\s]?)? of the phone pattern, in backtracking order:
group present (its inner quantifiers greedy) first, group absent last.
Each candidate is (captured text if the group participated, rest). -/
def phoneGroupCands (cs : List Char) : List (Option (List Char) × List Char) :=
  ((optSplits (fun c => c = '+') cs).flatMap (fun pl =>
    (greedySplitsAtMost isDigitCh 3 pl.2).flatMap (fun dg =>
      (optSplits isPhoneSepCh dg.2).map (fun sp =>
        (some (pl.1 ++ dg.1 ++ sp.1), sp.2)))))
  ++ [(none, cs)]

/-- One attempt of the phone pattern
(\+?\d{1,3}[-.\s]?)?\(?\d{3}\)?[-.\s]?\d{3}[-.\s]?\d{4} at a fixed
position.  Returns (whole match, group capture, rest). -/
def tryPhoneAt (cs : List Char) : Option (List Char × Option (List Char) × List Char) :=
  (phoneGroupCands cs).findSome? (fun g =>
    (optSplits (fun c => c = '(') g.2).findSome? (fun o1 =>
      (exactSplit isDigitCh 3 o1.2).bind (fun d1 =>
        (optSplits (fun c => c = ')') d1.2).findSome? (fun o2 =>
          (optSplits isPhoneSepCh o2.2).findSome? (fun s1 =>
            (exactSplit isDigitCh 3 s1.2).bind (fun d2 =>
              (optSplits isPhoneSepCh d2.2).findSome? (fun s2 =>
                (exactSplit isDigitCh 4 s2.2).map (fun d3 =>
                  ((g.1.getD []) ++ o1.1 ++ d1.1 ++ o2.1 ++ s1.1
                      ++ d2.1 ++ s2.1 ++ d3.1,
                   g.1, d3.2)))))))))

/-- re.findall scan for the phone pattern, collecting
(whole match, group capture) pairs. -/
def scanPhones : List Char → Nat → List (List Char × Option (List Char))
  | _, 0 => []
  | cs, fuel + 1 =>
    match tryPhoneAt cs with
    | some (m, g, rest) => (m, g) :: scanPhones rest fuel
    | none =>
      match cs with
      | [] => []
      | _ :: t => scanPhones t fuel

/-- All phone-pattern attempts in a text: whole match and group-1
capture for each match. -/
def phoneMatchPairs (s : String) : List (String × String) :=
  (scanPhones s.toList (s.toList.length + 1)).map
    (fun p => (String.mk p.1, String.mk (p.2.getD [])))

/-- The phone numbers the pattern finds in a text (the whole matches —
what the specification says the extraction returns). -/
def phoneMatchesWhole (s : String) : List String :=
  (phoneMatchPairs s).map (·.1)

/-- What re.findall actually returns for a pattern with exactly one
capturing group: the group captures (empty string when the optional
group did not participate). -/
def phoneFindallGroups (s : String) : List String :=
  (phoneMatchPairs s).map (·.2)

/-- The contact_info dict (lines 187-202). -/
structure ContactInfo where
  emails : List String
  phones : List String
deriving Repr, DecidableEq

/-- WebScraperService._extract_contact_info (lines 187-202): regex
findall over soup.get_text() for both patterns; list(set(...))[:5] on
each.  For the phone pattern findall returns the group-1 captures
(the pattern has one capturing group), and ''.join over a single
string is that string. -/
def _extract_contact_info (d : Doc) : ContactInfo :=
  let text := docText d
  { emails := (pySetList (emailMatches text)).take 5
    phones := (pySetList (phoneFindallGroups text)).take 5 }

/-! ## The fetcher: WebScraperService.scrape_website (lines 25-81) -/

/-- Non-empty all-digit character list to a natural number. -/
def digitsToNat (ds : List Char) : Option Nat :=
  if ds ≠ [] && ds.all isDigitCh then
    some (ds.foldl (fun a c => a * 10 + (c.toNat - '0'.toNat)) 0)
  else none

/-- Python int(str): surrounding whitespace stripped, optional sign,
decimal digits (the underscore grouping Python also accepts is not
exercised by content-length headers). None models the ValueError. -/
def pyIntParse (s : String) : Option Int :=
  match stripL s.toList with
  | '+' :: ds => (digitsToNat ds).map (fun n => (n : Int))
  | '-' :: ds => (digitsToNat ds).map (fun n => -(n : Int))
  | ds => (digitsToNat ds).map (fun n => (n : Int))

/-- self.max_content_length (line 15). -/
def max_content_length : Nat := 1000000

/-- The scraped_data dict of a successful scrape (lines 55-69).  The
dict literal evaluates its values top to bottom, so the extractors run
in source order and _extract_main_content mutates the soup seen by the
later extractors. -/
structure ScrapedData where
  url : String
  original_url : String
  title : String
  description : String
  keywords : List String
  headings : List (String × List String)
  main_content : String
  contact_info : ContactInfo
  social_links : List String
  business_info : BusinessInfo
  technologies : List String
  scraped_at : String
deriving Repr, DecidableEq

/-- The result dict of scrape_website: a full record on success, or
{url, error, success: False} on failure. -/
inductive ScrapeOutcome where
  | ok (data : ScrapedData)
  | fail (url : String) (error : String)
deriving Repr, DecidableEq

/-- result.get("success", False). -/
def ScrapeOutcome.successFlag : ScrapeOutcome → Bool
  | .ok _ => true
  | .fail _ _ => false

/-- result.get("error"). -/
def ScrapeOutcome.errorField : ScrapeOutcome → Option String
  | .ok _ => none
  | .fail _ e => some e

/-- The outcome of one httpx GET, as seen by scrape_website: a timeout,
some other exception (its message), or a response with a status code, a
declared content-length header value and a (parsed) body.  The parse of
the body bytes by BeautifulSoup is modelled as already done; a parser
exception is an `exc` outcome. -/
inductive NetResult where
  | timeout
  | exc (msg : String)
  | resp (status : Nat) (contentLength : Option String) (body : Doc)

/-- Lines 55-69: the scraped_data dict literal, with the soup mutation
of _extract_main_content threaded to the extractors evaluated after it. -/
def buildScrapedData (jsonLoads : String → Option PyJson) (now cleaned_url original_url : String)
    (d : Doc) : ScrapedData :=
  let title := _extract_title d
  let description := _extract_description d
  let keywords := _extract_keywords d
  let headings := _extract_headings d
  let mc := _extract_main_content d
  let d2 := mc.2
  let contact_info := _extract_contact_info d2
  let social_links := _extract_social_links d2
  let business_info := _extract_business_info jsonLoads d2
  let technologies := _extract_technologies d2
  { url := cleaned_url, original_url, title, description, keywords, headings,
    main_content := mc.1, contact_info, social_links, business_info, technologies,
    scraped_at := now }

/-- response.raise_for_status() and the success branch (lines 49-71):
httpx raises HTTPStatusError for every non-2xx status. -/
def scrapeRespond (jsonLoads : String → Option PyJson) (now url cleaned_url : String)
    (status : Nat) (body : Doc) : ScrapeOutcome :=
  if status < 200 || 299 < status then .fail url ("HTTP " ++ toString status)
  else .ok (buildScrapedData jsonLoads now cleaned_url url body)

/-- WebScraperService.scrape_website (lines 25-81): clean the URL, GET
it, short-circuit on a declared over-limit content-length, map the
exception taxonomy to failure records, otherwise extract.  `net` is the
network collaborator, `jsonLoads` the JSON collaborator, `now` the
clock reading used for scraped_at. -/
def scrape_website (net : String → NetResult) (jsonLoads : String → Option PyJson)
    (now url : String) : ScrapeOutcome :=
  match _clean_url url with
  | none => .fail url "Invalid URL format"
  | some cleaned_url =>
    match net cleaned_url with
    | .timeout => .fail url "Request timeout"
    | .exc m => .fail url m
    | .resp status cl body =>
      match cl with
      | some s =>
        if s ≠ "" then
          match pyIntParse s with
          | none => .fail url ("invalid literal for int() with base 10: " ++ s)
          | some n =>
            if (max_content_length : Int) < n then .fail url "Content too large"
            else scrapeRespond jsonLoads now url cleaned_url status body
        else scrapeRespond jsonLoads now url cleaned_url status body
      | none => scrapeRespond jsonLoads now url cleaned_url status body

/-- The content-length guard lets the response through (header absent,
empty, or parsed at or under the ceiling). -/
def contentLengthOk (cl : Option String) : Bool :=
  match cl with
  | none => true
  | some s =>
    s = "" ||
      (match pyIntParse s with
       | some n => decide (n ≤ (max_content_length : Int))
       | none => false)

/-! ## Reduction lemmas for scrape_website -/

theorem scrape_website_clean_none {net : String → NetResult} {jl : String → Option PyJson}
    {now url : String} (hcl : _clean_url url = none) :
    scrape_website net jl now url = .fail url "Invalid URL format" := by
  unfold scrape_website
  rw [hcl]

theorem scrape_website_timeout {net : String → NetResult} {jl : String → Option PyJson}
    {now url cu : String} (hcl : _clean_url url = some cu) (hnet : net cu = .timeout) :
    scrape_website net jl now url = .fail url "Request timeout" := by
  unfold scrape_website
  rw [hcl]
  dsimp only
  rw [hnet]

theorem scrape_website_exc {net : String → NetResult} {jl : String → Option PyJson}
    {now url cu m : String} (hcl : _clean_url url = some cu) (hnet : net cu = .exc m) :
    scrape_website net jl now url = .fail url m := by
  unfold scrape_website
  rw [hcl]
  dsimp only
  rw [hnet]

theorem scrape_website_resp_noCL {net : String → NetResult} {jl : String → Option PyJson}
    {now url cu : String} {status : Nat} {body : Doc}
    (hcl : _clean_url url = some cu) (hnet : net cu = .resp status none body) :
    scrape_website net jl now url = scrapeRespond jl now url cu status body := by
  unfold scrape_website
  rw [hcl]
  dsimp only
  simp only [hnet]

theorem scrape_website_resp_someCL {net : String → NetResult} {jl : String → Option PyJson}
    {now url cu s : String} {status : Nat} {body : Doc}
    (hcl : _clean_url url = some cu) (hnet : net cu = .resp status (some s) body) :
    scrape_website net jl now url =
      (if s ≠ "" then
        match pyIntParse s with
        | none => .fail url ("invalid literal for int() with base 10: " ++ s)
        | some n =>
          if (max_content_length : Int) < n then .fail url "Content too large"
          else scrapeRespond jl now url cu status body
      else scrapeRespond jl now url cu status body) := by
  unfold scrape_website
  rw [hcl]
  dsimp only
  simp only [hnet]

/-! ## Claim C4: scrape_website error mapping and totality -/

/-- Claim C4: scrape_website always returns a result record and never
raises: an input whose cleaned form is invalid yields
Failure("Invalid URL format") without any network call (the result
does not depend on any collaborator), a timeout yields
Failure("Request timeout"), a non-2xx response (passing the
content-length guard, which the source checks first) yields
Failure("HTTP <status>"), and any other exception during fetch or
parse yields a Failure carrying its message. -/
theorem C4_scrape_website_total_error_mapping
    (net : String → NetResult) (jl : String → Option PyJson) (now url : String) :
    (_clean_url url = none →
      scrape_website net jl now url = .fail url "Invalid URL format" ∧
      ∀ net2 jl2 now2, scrape_website net jl now url = scrape_website net2 jl2 now2 url) ∧
    (∀ cu, _clean_url url = some cu →
      (net cu = .timeout →
        scrape_website net jl now url = .fail url "Request timeout") ∧
      (∀ m, net cu = .exc m → scrape_website net jl now url = .fail url m) ∧
      (∀ status cl body, net cu = .resp status cl body →
        contentLengthOk cl = true → (status < 200 ∨ 299 < status) →
        scrape_website net jl now url = .fail url ("HTTP " ++ toString status))) ∧
    ((∃ d, scrape_website net jl now url = .ok d) ∨
      (∃ e, scrape_website net jl now url = .fail url e)) := by
  refine ⟨?_, ?_, ?_⟩
  · intro hcl
    exact ⟨scrape_website_clean_none hcl, fun net2 jl2 now2 =>
      (scrape_website_clean_none hcl).trans (scrape_website_clean_none hcl).symm⟩
  · intro cu hcl
    refine ⟨?_, ?_, ?_⟩
    · intro hnet
      exact scrape_website_timeout hcl hnet
    · intro m hnet
      exact scrape_website_exc hcl hnet
    · intro status cl body hnet hok hst
      have hresp : scrapeRespond jl now url cu status body
          = .fail url ("HTTP " ++ toString status) := by
        unfold scrapeRespond
        have hb : (status < 200 || 299 < status) = true := by
          rcases hst with h | h
          · simp [h]
          · simp [h]
        rw [if_pos hb]
      cases cl with
      | none => rw [scrape_website_resp_noCL hcl hnet]; exact hresp
      | some s =>
        rw [scrape_website_resp_someCL hcl hnet]
        simp only [contentLengthOk] at hok
        by_cases hse : s = ""
        · subst hse
          simp only [ne_eq, not_true_eq_false, if_false, reduceIte]
          exact hresp
        · rw [if_pos (by simpa using hse)]
          simp only [hse, decide_False, Bool.false_or] at hok
          cases hp : pyIntParse s with
          | none => rw [hp] at hok; simp at hok
          | some n =>
            rw [hp] at hok
            simp only [decide_eq_true_eq] at hok
            dsimp only
            rw [if_neg (Int.not_lt.mpr hok)]
            exact hresp
  · have hre : ∀ cu st bd,
        (∃ d, scrapeRespond jl now url cu st bd = .ok d) ∨
          (∃ e, scrapeRespond jl now url cu st bd = .fail url e) := by
      intro cu st bd
      unfold scrapeRespond
      by_cases h : (st < 200 || 299 < st) = true
      · right; rw [if_pos h]; exact ⟨_, rfl⟩
      · left; rw [if_neg h]; exact ⟨_, rfl⟩
    cases hcl : _clean_url url with
    | none =>
      right
      exact ⟨"Invalid URL format", scrape_website_clean_none hcl⟩
    | some cu =>
      cases hnet : net cu with
      | timeout =>
        right
        exact ⟨"Request timeout", scrape_website_timeout hcl hnet⟩
      | exc m =>
        right
        exact ⟨m, scrape_website_exc hcl hnet⟩
      | resp status cl body =>
        cases cl with
        | none => rw [scrape_website_resp_noCL hcl hnet]; exact hre cu status body
        | some s =>
          rw [scrape_website_resp_someCL hcl hnet]
          by_cases hse : s = ""
          · subst hse
            simpa using hre cu status body
          · rw [if_pos (by simpa using hse)]
            cases pyIntParse s with
            | none => right; exact ⟨_, rfl⟩
            | some n =>
              dsimp only
              by_cases hn : (max_content_length : Int) < n
              · right
                rw [if_pos hn]
                exact ⟨_, rfl⟩
              · rw [if_neg hn]
                exact hre cu status body

/-- Concrete collaborator used by witnesses: times out everywhere. -/
def netTimeout : String → NetResult := fun _ => .timeout

/-- Concrete collaborator used by witnesses: raises everywhere. -/
def netBoom : String → NetResult := fun _ => .exc "boom"

/-- Concrete collaborator used by witnesses: plain 404 response. -/
def net404 : String → NetResult := fun _ => .resp 404 none []

/-- Concrete JSON collaborator used by witnesses. -/
def jlNone : String → Option PyJson := fun _ => none

/-- Witness for C4: each hypothesis discharged at a concrete input —
an invalid URL, a timing-out site, a raising site and a 404 site. -/
theorem C4_witness :
    (scrape_website netTimeout jlNone "t" "   " = .fail "   " "Invalid URL format" ∧
      scrape_website netTimeout jlNone "t" "   " = scrape_website net404 jlNone "u" "   ") ∧
    scrape_website netTimeout jlNone "t" "a.com" = .fail "a.com" "Request timeout" ∧
    scrape_website netBoom jlNone "t" "a.com" = .fail "a.com" "boom" ∧
    scrape_website net404 jlNone "t" "a.com" = .fail "a.com" "HTTP 404" := by
  have hinv : _clean_url "   " = none := by decide
  have hcl : _clean_url "a.com" = some "https://a.com" := by decide
  refine ⟨?_, ?_, ?_, ?_⟩
  · have h := (C4_scrape_website_total_error_mapping netTimeout jlNone "t" "   ").1 hinv
    exact ⟨h.1, h.2 net404 jlNone "u"⟩
  · exact (((C4_scrape_website_total_error_mapping netTimeout jlNone "t" "a.com").2.1
      "https://a.com" hcl).1) rfl
  · exact (((C4_scrape_website_total_error_mapping netBoom jlNone "t" "a.com").2.1
      "https://a.com" hcl).2.1) "boom" rfl
  · exact (((C4_scrape_website_total_error_mapping net404 jlNone "t" "a.com").2.1
      "https://a.com" hcl).2.2) 404 none [] rfl rfl (by omega)

/-! ## Claim C6: content-length short-circuit -/

/-- Claim C6: a declared content-length parsing above 1,000,000 makes
scrape_website fail with "Content too large" before the body is read —
for every status code, and independently of the response body (two
collaborators serving the same headers with different bodies give the
same result). -/
theorem C6_content_too_large
    (net net2 : String → NetResult) (jl jl2 : String → Option PyJson)
    (now now2 url cu s : String) (n : Int) (status : Nat) (body body2 : Doc)
    (hcl : _clean_url url = some cu)
    (hnet : net cu = .resp status (some s) body)
    (hnet2 : net2 cu = .resp status (some s) body2)
    (hparse : pyIntParse s = some n)
    (hbig : (1000000 : Int) < n) :
    scrape_website net jl now url = .fail url "Content too large" ∧
    scrape_website net jl now url = scrape_website net2 jl2 now2 url := by
  have hse : s ≠ "" := by
    intro he
    subst he
    simp [pyIntParse, stripL, List.dropWhile, digitsToNat] at hparse
  have hmain : ∀ (net3 : String → NetResult) (jl3 : String → Option PyJson)
      (now3 : String) (body3 : Doc), net3 cu = .resp status (some s) body3 →
      scrape_website net3 jl3 now3 url = .fail url "Content too large" := by
    intro net3 jl3 now3 body3 hnet3
    rw [scrape_website_resp_someCL hcl hnet3, if_pos (by simpa using hse), hparse]
    dsimp only
    rw [if_pos (by simpa [max_content_length] using hbig)]
  exact ⟨hmain net jl now body hnet,
    (hmain net jl now body hnet).trans (hmain net2 jl2 now2 body2 hnet2).symm⟩

/-- Concrete collaborator for the C6 witness: a 404 response declaring
a two-megabyte content-length. -/
def netHuge404 : String → NetResult :=
  fun _ => .resp 404 (some "2000000") [⟨"body", [], "hello"⟩]

/-- Concrete collaborator for the C6 witness: same headers, different
body. -/
def netHuge404b : String → NetResult :=
  fun _ => .resp 404 (some "2000000") []

/-- Witness for C6: a non-2xx response with a declared content-length
of 2,000,000 yields "Content too large", body-independently. -/
theorem C6_witness :
    scrape_website netHuge404 jlNone "t" "a.com" = .fail "a.com" "Content too large" ∧
    scrape_website netHuge404 jlNone "t" "a.com"
      = scrape_website netHuge404b jlNone "u" "a.com" :=
  C6_content_too_large netHuge404 netHuge404b jlNone jlNone "t" "u" "a.com"
    "https://a.com" "2000000" 2000000 404 [⟨"body", [], "hello"⟩] []
    (by decide) rfl rfl (by decide) (by decide)

/-! ## The bounded batch runner: semaphore + asyncio.gather

Both scrape_multiple_websites (scraper.py lines 83-115) and
send_bulk_emails (gmail_service.py lines 95-159) follow the same
pattern: create asyncio.Semaphore(max_concurrent), create one task per
input in input order, asyncio.gather(*tasks, return_exceptions=True),
and post-process.  The scheduler nondeterminism (admission order and
completion order of the concurrent workers) is modelled as an explicit
action trace; gather returns its results in task order once every task
is finished, whatever the trace was. -/

/-- A finished worker either returned a value or raised; gather with
return_exceptions=True surfaces the exception (its message here). -/
inductive PyRes (β : Type) where
  | val (v : β)
  | exc (msg : String)
deriving Repr, DecidableEq

/-- asyncio.Semaphore(value) raises ValueError for a negative initial
value and accepts zero. -/
def semaphoreInit (value : Int) : Except String Unit :=
  if value < 0 then .error "Semaphore initial value must be >= 0" else .ok ()

/-- State of one gather call: indices of tasks awaiting the semaphore,
indices of tasks holding a slot, and finished tasks with results. -/
structure GState (β : Type) where
  pending : List Nat
  running : List Nat
  done : List (Nat × PyRes β)
deriving Repr, DecidableEq

/-- A scheduler event: a task acquires the semaphore, or a running
task finishes (computing its worker's result). -/
inductive GAction where
  | acquire (i : Nat)
  | finish (i : Nat)
deriving Repr, DecidableEq

/-- One scheduler event.  Admission requires a free slot under the
cap; completion requires the task to be running.  Invalid events make
the trace invalid. -/
def gstep {β : Type} (cap : Int) (w : Nat → PyRes β) (s : GState β) :
    GAction → Option (GState β)
  | .acquire i =>
    if s.pending.contains i && decide ((s.running.length : Int) < cap) then
      some ⟨s.pending.erase i, i :: s.running, s.done⟩
    else none
  | .finish i =>
    if s.running.contains i then
      some ⟨s.pending, s.running.erase i, (i, w i) :: s.done⟩
    else none

/-- Run a scheduler trace. -/
def gexec {β : Type} (cap : Int) (w : Nat → PyRes β) : GState β → List GAction → Option (GState β)
  | s, [] => some s
  | s, a :: rest =>
    match gstep cap w s a with
    | some s2 => gexec cap w s2 rest
    | none => none

/-- Initial state: every task pending. -/
def gInit (β : Type) (n : Nat) : GState β := ⟨List.range n, [], []⟩

/-- gather has returned: no pending or running task remains. -/
def gFinal {β : Type} (s : GState β) : Bool := s.pending.isEmpty && s.running.isEmpty

/-- The coroutine created for item i: the worker applied to the i-th
input. -/
def taskOf {α β : Type} (items : List α) (worker : α → PyRes β) (i : Nat) : PyRes β :=
  match items[i]? with
  | some a => worker a
  | none => .exc "index out of range"

/-- asyncio.gather(*tasks) under the semaphore: run the trace; once
every task has finished, the results in task order; none while the
gather has not completed (or the trace is invalid). -/
def gatherSem {α β : Type} (cap : Int) (items : List α) (worker : α → PyRes β)
    (acts : List GAction) : Option (List (PyRes β)) :=
  match gexec cap (taskOf items worker) (gInit β items.length) acts with
  | some s =>
    if gFinal s then
      some ((List.range items.length).map (fun i => (s.done.lookup i).getD (.exc "")))
    else none
  | none => none

/-! ## Scheduler invariant: each index lives in exactly one place and
finished tasks carry their own worker's result -/

def ginv {β : Type} (n : Nat) (w : Nat → PyRes β) (s : GState β) : Prop :=
  (∀ j, s.pending.count j + s.running.count j + (s.done.map Prod.fst).count j
      = if j < n then 1 else 0) ∧
  ∀ p ∈ s.done, p.2 = w p.1

theorem ginv_init {β : Type} (n : Nat) (w : Nat → PyRes β) : ginv n w (gInit β n) := by
  constructor
  · intro j
    simp only [gInit, List.count_nil, List.map_nil, Nat.add_zero]
    by_cases hj : j < n
    · rw [if_pos hj]
      exact List.count_eq_one_of_mem (List.nodup_range n) (List.mem_range.mpr hj)
    · rw [if_neg hj]
      exact List.count_eq_zero_of_not_mem (by simpa [List.mem_range] using hj)
  · intro p hp
    simp [gInit] at hp

theorem gstep_inv {β : Type} {n : Nat} {cap : Int} {w : Nat → PyRes β}
    {s s2 : GState β} {a : GAction}
    (hinv : ginv n w s) (hstep : gstep cap w s a = some s2) : ginv n w s2 := by
  obtain ⟨hcount, hvals⟩ := hinv
  cases a with
  | acquire i =>
    simp only [gstep] at hstep
    by_cases hc : (s.pending.contains i && decide ((s.running.length : Int) < cap)) = true
    · rw [if_pos hc] at hstep
      have hi : i ∈ s.pending := by
        have hm := ((Bool.and_eq_true _ _).mp hc).1
        simpa using hm
      have hs2 : s2 = ⟨s.pending.erase i, i :: s.running, s.done⟩ :=
        (Option.some.inj hstep).symm
      subst hs2
      refine ⟨?_, hvals⟩
      intro j
      have hbase := hcount j
      dsimp only
      by_cases hj : j = i
      · subst hj
        have hpos : 0 < s.pending.count j := List.count_pos_iff.mpr hi
        rw [List.count_erase_self, List.count_cons_self]
        omega
      · rw [List.count_erase_of_ne hj, List.count_cons_of_ne hj]
        exact hbase
    · rw [if_neg hc] at hstep
      exact absurd hstep (by simp)
  | finish i =>
    simp only [gstep] at hstep
    by_cases hc : s.running.contains i = true
    · rw [if_pos hc] at hstep
      have hi : i ∈ s.running := by simpa using hc
      have hs2 : s2 = ⟨s.pending, s.running.erase i, (i, w i) :: s.done⟩ :=
        (Option.some.inj hstep).symm
      subst hs2
      constructor
      · intro j
        have hbase := hcount j
        dsimp only
        rw [List.map_cons]
        by_cases hj : j = i
        · subst hj
          have hpos : 0 < s.running.count j := List.count_pos_iff.mpr hi
          rw [List.count_erase_self, List.count_cons_self]
          omega
        · rw [List.count_erase_of_ne hj, List.count_cons_of_ne hj]
          exact hbase
      · intro p hp
        dsimp only at hp
        rcases List.mem_cons.mp hp with h1 | h2
        · rw [h1]
        · exact hvals p h2
    · rw [if_neg (by simpa using hc)] at hstep
      exact absurd hstep (by simp)

theorem gexec_inv {β : Type} {n : Nat} {cap : Int} {w : Nat → PyRes β} :
    ∀ {acts : List GAction} {s s2 : GState β},
      ginv n w s → gexec cap w s acts = some s2 → ginv n w s2 := by
  intro acts
  induction acts with
  | nil =>
    intro s s2 hinv h
    simp only [gexec, Option.some.injEq] at h
    rwa [← h]
  | cons a rest ih =>
    intro s s2 hinv h
    simp only [gexec] at h
    cases hstep : gstep cap w s a with
    | none => rw [hstep] at h; exact absurd h (by simp)
    | some smid => rw [hstep] at h; exact ih (gstep_inv hinv hstep) h

theorem lookup_mem_pair {β : Type} :
    ∀ {l : List (Nat × PyRes β)} {a : Nat} {b : PyRes β},
      l.lookup a = some b → (a, b) ∈ l := by
  intro l
  induction l with
  | nil => intro a b h; simp [List.lookup] at h
  | cons p t ih =>
    intro a b h
    obtain ⟨x, y⟩ := p
    simp only [List.lookup] at h
    cases hxa : (a == x) with
    | true =>
      rw [hxa] at h
      simp only [Option.some.injEq] at h
      have hax : a = x := by simpa using hxa
      rw [hax, h]
      exact List.mem_cons_self _ _
    | false =>
      rw [hxa] at h
      exact List.mem_cons_of_mem _ (ih h)

theorem lookup_isSome_of_mem_fst {β : Type} :
    ∀ {l : List (Nat × PyRes β)} {a : Nat},
      a ∈ l.map Prod.fst → (l.lookup a).isSome = true := by
  intro l
  induction l with
  | nil => intro a h; simp at h
  | cons p t ih =>
    intro a h
    obtain ⟨x, y⟩ := p
    simp only [List.map_cons, List.mem_cons] at h
    simp only [List.lookup]
    cases hxa : (a == x) with
    | true => simp
    | false =>
      rcases h with h1 | h2
      · exact absurd (by simpa using h1 : a = x) (by simpa using hxa)
      · exact ih h2

/-- In a final invariant state, looking up any in-range index yields
that index's own worker result. -/
theorem gfinal_lookup {β : Type} {n : Nat} {w : Nat → PyRes β} {s : GState β}
    (hinv : ginv n w s) (hfin : gFinal s = true) {i : Nat} (hi : i < n) :
    s.done.lookup i = some (w i) := by
  obtain ⟨hcount, hvals⟩ := hinv
  have hpe : s.pending = [] := by
    have h1 := ((Bool.and_eq_true _ _).mp hfin).1
    simpa [List.isEmpty_iff] using h1
  have hre : s.running = [] := by
    have h2 := ((Bool.and_eq_true _ _).mp hfin).2
    simpa [List.isEmpty_iff] using h2
  have hc := hcount i
  rw [hpe, hre, if_pos hi] at hc
  simp only [List.count_nil, Nat.zero_add] at hc
  have hmem : i ∈ s.done.map Prod.fst := by
    have : 0 < (s.done.map Prod.fst).count i := by omega
    exact List.count_pos_iff.mp this
  have hsome := lookup_isSome_of_mem_fst hmem
  cases hlk : s.done.lookup i with
  | none => rw [hlk] at hsome; simp at hsome
  | some v =>
    have hpair : (i, v) ∈ s.done := lookup_mem_pair hlk
    have hv : v = w i := hvals (i, v) hpair
    rw [hv]

/-- The tasks list in task order equals the worker mapped over the
inputs. -/
theorem range_map_taskOf {α β : Type} (items : List α) (worker : α → PyRes β) :
    (List.range items.length).map (taskOf items worker) = items.map worker := by
  induction items with
  | nil => rfl
  | cons x xs ih =>
    have h0 : taskOf (x :: xs) worker 0 = worker x := by
      simp [taskOf]
    have hstep : ∀ i, taskOf (x :: xs) worker (Nat.succ i) = taskOf xs worker i := by
      intro i
      simp [taskOf]
    rw [List.length_cons, List.range_succ_eq_map, List.map_cons, List.map_map,
      List.map_cons, h0]
    congr 1
    rw [← ih]
    exact List.map_congr_left (fun i _ => hstep i)

/-- A completed gather returns exactly the worker mapped over the
inputs, index-aligned, for every scheduler trace. -/
theorem gatherSem_some_eq {α β : Type} {cap : Int} {items : List α}
    {worker : α → PyRes β} {acts : List GAction} {out : List (PyRes β)}
    (h : gatherSem cap items worker acts = some out) :
    out = items.map worker := by
  unfold gatherSem at h
  cases hg : gexec cap (taskOf items worker) (gInit β items.length) acts with
  | none => rw [hg] at h; exact absurd h (by simp)
  | some s =>
    rw [hg] at h
    dsimp only at h
    by_cases hf : gFinal s = true
    · rw [if_pos hf] at h
      have hinv : ginv items.length (taskOf items worker) s :=
        gexec_inv (ginv_init items.length (taskOf items worker)) hg
      simp only [Option.some.injEq] at h
      rw [← h]
      rw [← range_map_taskOf items worker]
      apply List.map_congr_left
      intro i hi
      rw [gfinal_lookup hinv hf (List.mem_range.mp hi)]
      rfl
    · rw [if_neg hf] at h
      exact absurd h (by simp)

/-- With a zero cap no scheduler event is possible: tasks can never be
admitted (no slot exists) and nothing runs. -/
theorem gexec_zero_cap {β : Type} {w : Nat → PyRes β} {s0 s : GState β}
    (hrun : s0.running = []) :
    ∀ acts, gexec 0 w s0 acts = some s → s = s0 := by
  intro acts
  cases acts with
  | nil =>
    intro h
    simp only [gexec, Option.some.injEq] at h
    exact h.symm
  | cons a rest =>
    intro h
    exfalso
    cases a with
    | acquire i =>
      have hlt : ¬ ((s0.running.length : Int) < 0) := by omega
      simp [gexec, gstep, hlt] at h
    | finish i =>
      simp [gexec, gstep, hrun] at h

/-- With a zero cap and at least one item, no trace completes the
gather. -/
theorem gatherSem_zero_cap_nonempty {α β : Type} (items : List α) (hne : items ≠ [])
    (worker : α → PyRes β) (acts : List GAction) :
    gatherSem 0 items worker acts = none := by
  unfold gatherSem
  cases hg : gexec 0 (taskOf items worker) (gInit β items.length) acts with
  | none => rfl
  | some s =>
    have hs : s = gInit β items.length := gexec_zero_cap rfl acts hg
    subst hs
    have hfin : gFinal (gInit β items.length) = false := by
      have hlen : items.length ≠ 0 := by
        intro h0
        exact hne (List.length_eq_zero.mp h0)
      simp only [gFinal, gInit]
      cases hl : List.range items.length with
      | nil =>
        exfalso
        exact hlen (by simpa using congrArg List.length hl)
      | cons a t => simp
    dsimp only
    rw [hfin]
    simp

/-! ## scrape_multiple_websites (scraper.py lines 83-115) -/

/-- Lines 103-115: convert each gathered result in index order; a task
that raised becomes a failure dict keyed with urls[i]. -/
def scrapePost (urls : List String) (results : List (PyRes ScrapeOutcome)) :
    List ScrapeOutcome :=
  results.enum.map (fun p =>
    match p.2 with
    | .val r => r
    | .exc m => .fail (urls.getD p.1 "") m)

/-- WebScraperService.scrape_multiple_websites (lines 83-115):
asyncio.Semaphore(max_concurrent), one scrape_website task per url in
input order, asyncio.gather(*tasks, return_exceptions=True), then the
exception post-processing.  `acts` is the scheduler history; the
result is `.ok none` on a history under which the gather has not
completed. -/
def scrape_multiple_websites (net : String → NetResult) (jsonLoads : String → Option PyJson)
    (now : String) (urls : List String) (max_concurrent : Int) (acts : List GAction) :
    Except String (Option (List ScrapeOutcome)) :=
  match semaphoreInit max_concurrent with
  | .error e => .error e
  | .ok _ =>
    .ok ((gatherSem max_concurrent urls
      (fun u => PyRes.val (scrape_website net jsonLoads now u)) acts).map
        (scrapePost urls))

/-! ## GmailService.send_email and send_bulk_emails -/

/-- One entry of the emails list: the dict keys to, subject, body and
the optional from (toAddr and fromAddr stand for the to/from keys). -/
structure EmailData where
  toAddr : String
  subject : String
  body : String
  fromAddr : Option String
deriving Repr, DecidableEq

/-- Outcome of the Gmail API POST for one message: a message id and
thread id on success, an HTTP error with status and response text, or
some other exception. -/
inductive SendNetResult where
  | ok (id threadId : Option String)
  | httpErr (status : Nat) (text : String)
  | exc (msg : String)

/-- The result dict of send_email: success flag, ids on the success
shape, error on the failure shape, recipient and subject always. -/
structure SendRes where
  success : Bool
  message_id : Option String
  thread_id : Option String
  toAddr : String
  subject : String
  error : Option String
deriving Repr, DecidableEq

/-- GmailService.send_email (gmail_service.py lines 15-93): build the
MIME payload (opaque at this level — the collaborator consumes the
message fields), POST it, map HTTPStatusError to
"HTTP <status>: <text>" and any other exception to its message; never
raises. -/
def send_email (sendNet : EmailData → SendNetResult) (e : EmailData) : SendRes :=
  match sendNet e with
  | .ok id tid =>
    { success := true, message_id := id, thread_id := tid
      toAddr := e.toAddr, subject := e.subject, error := none }
  | .httpErr status text =>
    { success := false, message_id := none, thread_id := none
      toAddr := e.toAddr, subject := e.subject,
      error := some ("HTTP " ++ toString status ++ ": " ++ text) }
  | .exc m =>
    { success := false, message_id := none, thread_id := none
      toAddr := e.toAddr, subject := e.subject, error := some m }

/-- The statistics dict returned by send_bulk_emails (lines 154-159). -/
structure BulkSendResult where
  total_emails : Nat
  successful : Nat
  failed : Nat
  results : List SendRes
deriving Repr, DecidableEq

/-- Lines 134-159: walk the gathered results in index order, counting
successes and failures; a raised task becomes a {to, success, error}
dict keyed with emails[i]. -/
def sendPost (emails : List EmailData) (results : List (PyRes SendRes)) : BulkSendResult :=
  let detailed := results.enum.map (fun p =>
    match p.2 with
    | .val r => r
    | .exc m =>
      { success := false, message_id := none, thread_id := none
        toAddr := (emails.getD p.1 ⟨"", "", "", none⟩).toAddr, subject := "", error := some m })
  { total_emails := emails.length
    successful := (detailed.filter (fun r => r.success)).length
    failed := (detailed.filter (fun r => !r.success)).length
    results := detailed }

/-- GmailService.send_bulk_emails (lines 95-159):
asyncio.Semaphore(max_concurrent), one send_email task per message in
list order (each task also sleeps delay_between_batches before
releasing its slot — pure pacing, no effect on the data flow, so the
delay is not a parameter here), gather, then the statistics dict. -/
def send_bulk_emails (sendNet : EmailData → SendNetResult) (emails : List EmailData)
    (max_concurrent : Int) (acts : List GAction) :
    Except String (Option BulkSendResult) :=
  match semaphoreInit max_concurrent with
  | .error e => .error e
  | .ok _ =>
    .ok ((gatherSem max_concurrent emails
      (fun e => PyRes.val (send_email sendNet e)) acts).map (sendPost emails))

/-! ## Post-processing of all-value gather results -/

theorem enumFrom_map_val {β γ : Type} (f : Nat × PyRes β → γ) (g : β → γ)
    (hf : ∀ i r, f (i, PyRes.val r) = g r) :
    ∀ (n : Nat) (ys : List β), ((ys.map PyRes.val).enumFrom n).map f = ys.map g := by
  intro n ys
  induction ys generalizing n with
  | nil => rfl
  | cons y t ih =>
    show f (n, PyRes.val y) :: ((t.map PyRes.val).enumFrom (n + 1)).map f
      = g y :: t.map g
    rw [hf, ih]

theorem scrapePost_val (urls : List String) (ys : List ScrapeOutcome) :
    scrapePost urls (ys.map PyRes.val) = ys := by
  unfold scrapePost
  have h := enumFrom_map_val
    (fun p => match p.2 with
      | .val r => r
      | .exc m => ScrapeOutcome.fail (urls.getD p.1 "") m)
    id (fun i r => rfl) 0 ys
  simpa [List.enum] using h

theorem sendPost_val (emails : List EmailData) (ys : List SendRes) :
    (sendPost emails (ys.map PyRes.val)).results = ys := by
  unfold sendPost
  have h := enumFrom_map_val
    (fun p => match p.2 with
      | .val r => r
      | .exc m =>
        ({ success := false, message_id := none, thread_id := none
           toAddr := (emails.getD p.1 ⟨"", "", "", none⟩).toAddr, subject := ""
           error := some m } : SendRes))
    id (fun i r => rfl) 0 ys
  simpa [List.enum] using h

/-! ## Claim C1: index alignment of both batch runners -/

/-- Claim C1: for every input sequence and every worker behaviour, a
completed batch run returns a result sequence of the input's length in
which the i-th result is the worker's outcome on the i-th input — for
every admission and completion order of the concurrent workers.
Stated for the shared gather pattern with an arbitrary worker, and for
scrape_multiple_websites and send_bulk_emails concretely. -/
theorem C1_batch_index_alignment :
    (∀ (α β : Type) (cap : Int) (items : List α) (worker : α → PyRes β)
        (acts : List GAction) (out : List (PyRes β)),
      gatherSem cap items worker acts = some out → out = items.map worker) ∧
    (∀ (net : String → NetResult) (jl : String → Option PyJson) (now : String)
        (urls : List String) (mc : Int) (acts : List GAction) (out : List ScrapeOutcome),
      scrape_multiple_websites net jl now urls mc acts = .ok (some out) →
      out.length = urls.length ∧ out = urls.map (scrape_website net jl now)) ∧
    (∀ (sendNet : EmailData → SendNetResult) (emails : List EmailData)
        (mc : Int) (acts : List GAction) (bulk : BulkSendResult),
      send_bulk_emails sendNet emails mc acts = .ok (some bulk) →
      bulk.results.length = emails.length ∧
      bulk.results = emails.map (send_email sendNet)) := by
  refine ⟨?_, ?_, ?_⟩
  · intro α β cap items worker acts out h
    exact gatherSem_some_eq h
  · intro net jl now urls mc acts out h
    unfold scrape_multiple_websites at h
    cases hsem : semaphoreInit mc with
    | error e => rw [hsem] at h; exact absurd h (by simp)
    | ok u =>
      rw [hsem] at h
      dsimp only at h
      simp only [Except.ok.injEq] at h
      obtain ⟨res, hres, hpost⟩ := Option.map_eq_some'.mp h
      have hr := gatherSem_some_eq hres
      have hrr : res = (urls.map (scrape_website net jl now)).map PyRes.val := by
        rw [hr, List.map_map]
        rfl
      rw [hrr] at hpost
      rw [scrapePost_val] at hpost
      refine ⟨?_, hpost.symm⟩
      rw [← hpost]
      exact (List.length_map _ _).symm ▸ rfl
  · intro sendNet emails mc acts bulk h
    unfold send_bulk_emails at h
    cases hsem : semaphoreInit mc with
    | error e => rw [hsem] at h; exact absurd h (by simp)
    | ok u =>
      rw [hsem] at h
      dsimp only at h
      simp only [Except.ok.injEq] at h
      obtain ⟨res, hres, hpost⟩ := Option.map_eq_some'.mp h
      have hr := gatherSem_some_eq hres
      have hrr : res = (emails.map (send_email sendNet)).map PyRes.val := by
        rw [hr, List.map_map]
        rfl
      rw [hrr] at hpost
      have hb : bulk.results = emails.map (send_email sendNet) := by
        rw [← hpost]
        exact sendPost_val emails (emails.map (send_email sendNet))
      refine ⟨?_, hb⟩
      rw [hb, List.length_map]

/-- A scheduler history in which item 1 completes before item 0. -/
def actsSwap : List GAction := [.acquire 0, .acquire 1, .finish 1, .finish 0]

/-- Concrete url list for the C1 witness. -/
def urlsW : List String := ["a.com", "b.com"]

/-- The index-aligned output of the C1 witness run. -/
def scrapeOutW : List ScrapeOutcome :=
  [.fail "a.com" "Request timeout", .fail "b.com" "Request timeout"]

/-- Concrete message list for the C1 witness. -/
def emailsW : List EmailData :=
  [⟨"x@a.com", "s1", "b1", none⟩, ⟨"y@b.com", "s2", "b2", none⟩]

/-- Gmail collaborator that accepts every message, echoing the
recipient as the message id. -/
def sendNetOkW : EmailData → SendNetResult := fun e => .ok (some e.toAddr) none

/-- The index-aligned send results of the C1 witness run. -/
def bulkResultsW : List SendRes :=
  [⟨true, some "x@a.com", none, "x@a.com", "s1", none⟩,
   ⟨true, some "y@b.com", none, "y@b.com", "s2", none⟩]

/-- Witness for C1: on a two-item batch with capacity 2 and a history
in which item 1 finishes first, both runners complete and the theorem
yields the index-aligned outputs. -/
theorem C1_witness :
    scrapeOutW = urlsW.map (scrape_website netTimeout jlNone "t") ∧
    bulkResultsW = emailsW.map (send_email sendNetOkW) := by
  constructor
  · exact (C1_batch_index_alignment.2.1 netTimeout jlNone "t" urlsW 2 actsSwap
      scrapeOutW (by rfl)).2
  · exact (C1_batch_index_alignment.2.2 sendNetOkW emailsW 2 actsSwap
      ⟨2, 2, 0, bulkResultsW⟩ (by rfl)).2

/-! ## Claim C5: degenerate inputs (corrected) -/

/-- Counterexample to C5 as stated: with maxConcurrent = 0 the
semaphore is created without error — the call is NOT a fast
configuration failure — and a nonempty batch yields no result: the
lone admission attempt is refused (no slot exists under a zero cap),
so the gather never completes. -/
theorem C5_counterexample :
    semaphoreInit 0 = .ok () ∧
    scrape_multiple_websites netTimeout jlNone "t" ["a.com"] 0 [] = .ok none ∧
    scrape_multiple_websites netTimeout jlNone "t" ["a.com"] 0 [.acquire 0] = .ok none :=
  ⟨rfl, rfl, rfl⟩

/-- Claim C5 as amended: an empty input returns an empty result at
once with no worker invoked; a NEGATIVE maxConcurrent fails fast with
the semaphore ValueError before any batch work; but maxConcurrent = 0
with a nonempty input is accepted and never completes (every worker
blocks on the semaphore forever), under every scheduler history. -/
theorem C5_degenerate_amended :
    (∀ (net : String → NetResult) (jl : String → Option PyJson) (now : String)
        (sendNet : EmailData → SendNetResult) (mc : Int), 0 ≤ mc →
      scrape_multiple_websites net jl now [] mc [] = .ok (some []) ∧
      send_bulk_emails sendNet [] mc [] = .ok (some ⟨0, 0, 0, []⟩)) ∧
    (∀ (net : String → NetResult) (jl : String → Option PyJson) (now : String)
        (urls : List String) (acts : List GAction) (mc : Int), mc < 0 →
      scrape_multiple_websites net jl now urls mc acts
        = .error "Semaphore initial value must be >= 0") ∧
    (∀ (sendNet : EmailData → SendNetResult) (emails : List EmailData)
        (acts : List GAction) (mc : Int), mc < 0 →
      send_bulk_emails sendNet emails mc acts
        = .error "Semaphore initial value must be >= 0") ∧
    (∀ (net : String → NetResult) (jl : String → Option PyJson) (now : String)
        (u : String) (urls : List String) (acts : List GAction),
      scrape_multiple_websites net jl now (u :: urls) 0 acts = .ok none) ∧
    (∀ (sendNet : EmailData → SendNetResult) (e : EmailData)
        (emails : List EmailData) (acts : List GAction),
      send_bulk_emails sendNet (e :: emails) 0 acts = .ok none) := by
  refine ⟨?_, ?_, ?_, ?_, ?_⟩
  · intro net jl now sendNet mc hmc
    have hsem : semaphoreInit mc = .ok () := by
      unfold semaphoreInit
      rw [if_neg (by omega)]
    constructor
    · unfold scrape_multiple_websites
      rw [hsem]
      rfl
    · unfold send_bulk_emails
      rw [hsem]
      rfl
  · intro net jl now urls acts mc hmc
    have hsem : semaphoreInit mc = .error "Semaphore initial value must be >= 0" := by
      unfold semaphoreInit
      rw [if_pos hmc]
    unfold scrape_multiple_websites
    rw [hsem]
  · intro sendNet emails acts mc hmc
    have hsem : semaphoreInit mc = .error "Semaphore initial value must be >= 0" := by
      unfold semaphoreInit
      rw [if_pos hmc]
    unfold send_bulk_emails
    rw [hsem]
  · intro net jl now u urls acts
    unfold scrape_multiple_websites
    rw [show semaphoreInit 0 = .ok () from rfl]
    dsimp only
    rw [gatherSem_zero_cap_nonempty (u :: urls) (by simp) _ acts]
    rfl
  · intro sendNet e emails acts
    unfold send_bulk_emails
    rw [show semaphoreInit 0 = .ok () from rfl]
    dsimp only
    rw [gatherSem_zero_cap_nonempty (e :: emails) (by simp) _ acts]
    rfl

/-- Witness for C5 (amended): each hypothesis discharged at concrete
inputs — empty batches at capacity 3, negative capacity -1, and a
one-item batch at capacity 0. -/
theorem C5_witness :
    (scrape_multiple_websites netTimeout jlNone "t" [] 3 [] = .ok (some []) ∧
      send_bulk_emails sendNetOkW [] 3 [] = .ok (some ⟨0, 0, 0, []⟩)) ∧
    scrape_multiple_websites netTimeout jlNone "t" ["a.com"] (-1) [] =
      .error "Semaphore initial value must be >= 0" ∧
    send_bulk_emails sendNetOkW emailsW (-1) [] =
      .error "Semaphore initial value must be >= 0" ∧
    scrape_multiple_websites netTimeout jlNone "t" ["a.com"] 0 [.acquire 0] = .ok none ∧
    send_bulk_emails sendNetOkW emailsW 0 [] = .ok none := by
  refine ⟨?_, ?_, ?_, ?_, ?_⟩
  · exact C5_degenerate_amended.1 netTimeout jlNone "t" sendNetOkW 3 (by omega)
  · exact C5_degenerate_amended.2.1 netTimeout jlNone "t" ["a.com"] [] (-1) (by omega)
  · exact C5_degenerate_amended.2.2.1 sendNetOkW emailsW [] (-1) (by omega)
  · exact C5_degenerate_amended.2.2.2.1 netTimeout jlNone "t" "a.com" [] [.acquire 0]
  · exact C5_degenerate_amended.2.2.2.2 sendNetOkW ⟨"x@a.com", "s1", "b1", none⟩
      [⟨"y@b.com", "s2", "b2", none⟩] []

/-! ## Claim C2: order-sensitivity of the extraction steps -/

/-- A page whose only script loads jQuery. -/
def docJQ : Doc :=
  [⟨"script", [("src", "https://code.jquery.com/jquery.min.js")], ""⟩,
   ⟨"body", [], "Welcome"⟩]

/-- A page carrying a JSON-LD organization payload. -/
def docLD : Doc :=
  [⟨"script", [("type", "application/ld+json")], "ld json payload"⟩,
   ⟨"body", [], "Welcome"⟩]

/-- json.loads collaborator that parses the payload into an
Organization object. -/
def jlOrg : String → Option PyJson :=
  fun _ => some (.obj [("@type", "Organization"), ("name", "Acme")])

/-- Claim C2 refuted on the code: the extraction steps are NOT
order-insensitive.  _extract_main_content decomposes every
script/style/nav/header/footer element from the SHARED soup, and
scrape_website's dict literal evaluates it before contact_info,
social_links, business_info and technologies; so _extract_technologies
finds jQuery on the raw document but nothing after the main-content
step, the composed pipeline always takes the diminished value, and the
JSON-LD business extraction is likewise dead in the pipeline. -/
theorem C2_extraction_order_sensitivity :
    _extract_technologies docJQ = ["jQuery"] ∧
    _extract_technologies (_extract_main_content docJQ).2 = [] ∧
    (buildScrapedData jlNone "t" "https://a.com" "a.com" docJQ).technologies = [] ∧
    _extract_technologies docJQ ≠ _extract_technologies (_extract_main_content docJQ).2 ∧
    (_extract_business_info jlOrg docLD).name = some "Acme" ∧
    (_extract_business_info jlOrg (_extract_main_content docLD).2).name = none ∧
    (buildScrapedData jlOrg "t" "https://a.com" "a.com" docLD).business_info.name = none := by
  refine ⟨rfl, rfl, rfl, by decide, rfl, rfl, rfl⟩

/-! ## Claim C8: contact-info extraction -/

/-- A page whose visible text holds one phone number. -/
def docPhone : Doc := [⟨"body", [], "Call 555-123-4567 today"⟩]

/-- A page whose visible text holds one email address. -/
def docEmail : Doc := [⟨"body", [], "mail a@b.co now"⟩]

/-- Claim C8 refuted on the code: the phone pattern has one capturing
group, and re.findall of a one-group pattern returns the GROUP
captures, not the matches — so _extract_contact_info stores the
optional country-code fragments (here the empty string), not the
matched phone numbers.  The pattern itself does match the number
(phoneMatchesWhole), and the email half behaves as claimed. -/
theorem C8_phone_findall_group_bug :
    phoneMatchesWhole (docText docPhone) = ["555-123-4567"] ∧
    (_extract_contact_info docPhone).phones = [""] ∧
    (_extract_contact_info docPhone).phones ≠ ["555-123-4567"] ∧
    (_extract_contact_info docPhone).emails = [] ∧
    (_extract_contact_info docEmail).emails = ["a@b.co"] := by
  refine ⟨?_, ?_, by decide, ?_, ?_⟩ <;> rfl

/-! ## The campaign endpoint (routes.py): report compilation and the
generation step -/

/-- The email_content dict attached to each contact (routes.py lines
440-454 and gemini_service.py): subject, body, success flag, optional
error. -/
structure EmailContent where
  subject : String
  body : String
  generated_successfully : Bool
  error : Option String
deriving Repr, DecidableEq

/-- A contact row (lines 398-412) with the per-phase data attached by
steps 4 and 5. -/
structure Contact where
  row_number : Nat
  email : String
  company_name : String
  website_url : String
  website_data : ScrapeOutcome
  email_content : EmailContent
deriving Repr, DecidableEq

/-- Python `a or b` over two .get("error") results: None and the empty
string are falsy. -/
def pyOrOpt (a b : Option String) : Option String :=
  match a with
  | some s => if s = "" then b else some s
  | none => b

/-- One entry of detailed_results (lines 482-493). -/
structure DetailedResult where
  row_number : Nat
  email : String
  company_name : String
  website_url : String
  website_scraped : Bool
  email_generated : Bool
  email_sent : Bool
  subject : String
  message_id : Option String
  error : Option String
deriving Repr, DecidableEq

/-- Line 482-493: the per-contact report entry; line 492 is
send_result.get("error") or website_data.get("error"). -/
def detailedEntry (c : Contact) (send_result : SendRes) : DetailedResult :=
  { row_number := c.row_number
    email := c.email
    company_name := c.company_name
    website_url := c.website_url
    website_scraped := c.website_data.successFlag
    email_generated := c.email_content.generated_successfully
    email_sent := send_result.success
    subject := c.email_content.subject
    message_id := send_result.message_id
    error := pyOrOpt send_result.error c.website_data.errorField }

/-- Step 7 (lines 476-493): one entry per contact, paired with the
same-index entry of send_results["results"] (the lists have equal
length by C1). -/
def compileDetailedResults (contacts : List Contact) (sends : List SendRes) :
    List DetailedResult :=
  (contacts.zip sends).map (fun p => detailedEntry p.1 p.2)

/-! ## Claim C3: which error the report keeps (corrected) -/

/-- A contact whose scrape failed with a timeout. -/
def contactC3 : Contact :=
  { row_number := 2, email := "x@a.com", company_name := "Acme", website_url := "a.com"
    website_data := .fail "a.com" "Request timeout"
    email_content := ⟨"s", "b", false, some "Website scraping failed"⟩ }

/-- A send result that failed with an HTTP error. -/
def sendFailC3 : SendRes :=
  ⟨false, none, none, "x@a.com", "s", some "HTTP 403: Forbidden"⟩

/-- Counterexample to C3 as stated: when the scrape failed first
("Request timeout") and the send also failed later ("HTTP 403"), the
report's error field holds the LATER send error — the first error is
replaced, not kept. -/
theorem C3_counterexample :
    contactC3.website_data.errorField = some "Request timeout" ∧
    (detailedEntry contactC3 sendFailC3).error = some "HTTP 403: Forbidden" ∧
    (detailedEntry contactC3 sendFailC3).error ≠ contactC3.website_data.errorField := by
  refine ⟨rfl, rfl, by decide⟩

/-- Claim C3 as amended: each entry does record whether each phase
(fetch, generate, send) succeeded, but the error field gives the
SEND-phase error precedence: it holds send.error when present and
non-empty, otherwise the scrape-phase error; an earlier scrape error
is overwritten by a later send error, and generation-phase errors are
never surfaced at all. -/
theorem C3_report_error_precedence (c : Contact) (sr : SendRes) :
    (detailedEntry c sr).website_scraped = c.website_data.successFlag ∧
    (detailedEntry c sr).email_generated = c.email_content.generated_successfully ∧
    (detailedEntry c sr).email_sent = sr.success ∧
    (detailedEntry c sr).error = pyOrOpt sr.error c.website_data.errorField ∧
    (sr.error = none → (detailedEntry c sr).error = c.website_data.errorField) ∧
    (∀ s, sr.error = some s → s ≠ "" → (detailedEntry c sr).error = some s) := by
  refine ⟨rfl, rfl, rfl, rfl, ?_, ?_⟩
  · intro h
    simp [detailedEntry, pyOrOpt, h]
  · intro s h hs
    simp [detailedEntry, pyOrOpt, h, hs]

/-- A successful send for the C3 witness. -/
def sendOkC3 : SendRes := ⟨true, some "id1", none, "x@a.com", "s", none⟩

/-- Witness for C3 (amended): with no send error the scrape error
survives; with a send error it wins. -/
theorem C3_witness :
    (detailedEntry contactC3 sendOkC3).error = contactC3.website_data.errorField ∧
    (detailedEntry contactC3 sendFailC3).error = some "HTTP 403: Forbidden" := by
  constructor
  · exact (C3_report_error_precedence contactC3 sendOkC3).2.2.2.2.1 rfl
  · exact (C3_report_error_precedence contactC3 sendFailC3).2.2.2.2.2
      "HTTP 403: Forbidden" rfl (by decide)

/-! ## Claim C9: the generation step -/

/-- A contact between steps 4 and 5 (website_data attached, no
email_content yet). -/
structure Contact0 where
  row_number : Nat
  email : String
  company_name : String
  website_url : String
  website_data : ScrapeOutcome
deriving Repr, DecidableEq

/-- The argument record of one generate_personalized_email call (lines
440-445). -/
structure GenArgs where
  recipient_email : String
  company_name : String
  website_data : ScrapedData
  email_purpose : String
deriving Repr, DecidableEq

/-- The fixed fallback email_content substituted when scraping failed
(lines 448-454). -/
def fallbackEmailContent (company_name : String) : EmailContent :=
  { subject := "Exploring partnership opportunities with " ++ company_name
    body := "Hi,\n\nI came across " ++ company_name
      ++ " and would love to discuss potential collaboration opportunities.\n\nWould you be open to a brief conversation?\n\nBest regards"
    generated_successfully := false
    error := some "Website scraping failed" }

/-- Step 5 (lines 438-454) for one contact: call the generation
collaborator when the scrape succeeded, else substitute the fixed
fallback.  The second component logs the collaborator invocations this
contact caused. -/
def generateForContact (gen : GenArgs → EmailContent) (purpose : String) (c : Contact0) :
    EmailContent × List GenArgs :=
  match c.website_data with
  | .ok d =>
    let args : GenArgs := ⟨c.email, c.company_name, d, purpose⟩
    (gen args, [args])
  | .fail _ _ => (fallbackEmailContent c.company_name, [])

/-- Step 5 over the whole contact list in order, accumulating the
invocation log. -/
def generateStep (gen : GenArgs → EmailContent) (purpose : String) :
    List Contact0 → List EmailContent × List GenArgs
  | [] => ([], [])
  | c :: rest =>
    let r := generateForContact gen purpose c
    let rr := generateStep gen purpose rest
    (r.1 :: rr.1, r.2 ++ rr.2)

/-- Claim C9: across the campaign step, the generation collaborator is
invoked exactly once per successfully-scraped contact — the call log
is exactly the argument list of the successful scrapes, in order, and
its length is the number of scrape successes — and every
failed-scrape contact receives exactly the fixed fallback template
without any collaborator call. -/
theorem C9_generation_once_or_fallback (gen : GenArgs → EmailContent) (purpose : String)
    (contacts : List Contact0) :
    (generateStep gen purpose contacts).2
      = contacts.filterMap (fun c =>
          match c.website_data with
          | .ok d => some (⟨c.email, c.company_name, d, purpose⟩ : GenArgs)
          | .fail _ _ => none) ∧
    (generateStep gen purpose contacts).1
      = contacts.map (fun c =>
          match c.website_data with
          | .ok d => gen ⟨c.email, c.company_name, d, purpose⟩
          | .fail _ _ => fallbackEmailContent c.company_name) ∧
    (generateStep gen purpose contacts).2.length
      = (contacts.filter (fun c => c.website_data.successFlag)).length := by
  induction contacts with
  | nil => exact ⟨rfl, rfl, rfl⟩
  | cons c rest ih =>
    obtain ⟨ih1, ih2, ih3⟩ := ih
    cases hc : c.website_data with
    | ok d =>
      refine ⟨?_, ?_, ?_⟩
      · simp [generateStep, generateForContact, hc, ih1, List.filterMap_cons]
      · simp [generateStep, generateForContact, hc, ih2]
      · simp [generateStep, generateForContact, hc, List.filter_cons,
          ScrapeOutcome.successFlag, ih3]
    | fail u m =>
      refine ⟨?_, ?_, ?_⟩
      · simp [generateStep, generateForContact, hc, ih1, List.filterMap_cons]
      · simp [generateStep, generateForContact, hc, ih2]
      · simp [generateStep, generateForContact, hc, List.filter_cons,
          ScrapeOutcome.successFlag, ih3]

/-! ## GeminiAIService.generate_personalized_email
(gemini_service.py lines 30-205) -/

/-- A sender configuration dict, restricted to the keys read outside
the prompt text (the other SENDER_CONFIG keys flow only into the
prompt consumed by the external model); each key optional, read with
.get defaults. -/
structure SenderCfg where
  sender_name : Option String
  sender_title : Option String
  company_name : Option String
deriving Repr, DecidableEq

/-- The module-level SENDER_CONFIG (lines 9-22), restricted to the
modelled keys. -/
def SENDER_CONFIG : SenderCfg :=
  { sender_name := some "John Smith"
    sender_title := some "Founder & CEO"
    company_name := some "GrowthPulse Marketing" }

/-- Python str.replace: non-overlapping left-to-right replacement of a
non-empty pattern, fuelled by the input length. -/
def replaceAllL (pat repl : List Char) : Nat → List Char → List Char
  | 0, cs => cs
  | _ + 1, [] => []
  | fuel + 1, c :: rest =>
    if pat.isPrefixOf (c :: rest) then
      repl ++ replaceAllL pat repl fuel ((c :: rest).drop pat.length)
    else
      c :: replaceAllL pat repl fuel rest

/-- Python str.replace on strings. -/
def pyReplace (s pat repl : String) : String :=
  String.mk (replaceAllL pat.toList repl.toList (s.toList.length + 1) s.toList)

/-- Everything after the first colon (line.split(':', 1)[1]). -/
def afterFirstColon : List Char → List Char
  | [] => []
  | ':' :: rest => rest
  | _ :: rest => afterFirstColon rest

/-- line.split(':', 1)[1].strip() if ':' in line else
line.replace('Subject', '').strip() (line 134). -/
def subjectFromLine (line : String) : String :=
  if line.toList.contains ':' then pyStrip (String.mk (afterFirstColon line.toList))
  else pyStrip (pyReplace line "Subject" "")

/-- line.lower().startswith(pre). -/
def lowerStartsWith (line pre : String) : Bool :=
  pre.toList.isPrefixOf (pyLower line).toList

/-- The loop state of the response parser (lines 127-131). -/
structure ParseState where
  subject : String
  body_lines : List String
  body_started : Bool
deriving Repr, DecidableEq

/-- One iteration of the parse loop (lines 132-141). -/
def parseLine (st : ParseState) (line : String) : ParseState :=
  if lowerStartsWith line "subject:" then
    { st with subject := subjectFromLine line }
  else if lowerStartsWith line "body:" then
    { st with body_started := true }
  else if st.body_started || (st.subject ≠ "" && !lowerStartsWith line "subject:") then
    let st2 := if !st.body_started && st.subject ≠ "" then
        { st with body_started := true }
      else st
    if st2.body_started then { st2 with body_lines := st2.body_lines ++ [line] } else st2
  else st

/-- Lines 127-141: email_text.strip().split('\n') folded through the
parse loop. -/
def parseEmailText (email_text : String) : ParseState :=
  ((splitOnL ['\n'] (pyStrip email_text).toList).map String.mk).foldl
    parseLine ⟨"", [], false⟩

/-- The placeholder list of lines 146-153. -/
def placeholders_to_remove : List String :=
  ["[Your Name]", "[My Name]", "[Name]",
   "[Your Title]", "[My Title]", "[Title]",
   "[Your Company]", "[My Company]", "[Company Name]", "[My Agency Name]", "[Agency Name]",
   "[Your Website]", "[My Website]", "[Website]",
   "[Recipient Name]", "[Their Name]",
   "[Your Email]", "[My Email]", "[Email]"]

/-- The category dispatch of lines 157-169 choosing each placeholder's
replacement. -/
def placeholderValue (sender : SenderCfg) (p : String) : String :=
  let pl := pyLower p
  if hasInfixS pl "name" && !hasInfixS pl "recipient" then sender.sender_name.getD ""
  else if hasInfixS pl "title" then sender.sender_title.getD ""
  else if hasInfixS pl "company" || hasInfixS pl "agency" then sender.company_name.getD ""
  else if hasInfixS pl "website" then ""
  else if hasInfixS pl "recipient" then ""
  else ""

/-- Lines 155-169: case-insensitive presence check, case-sensitive
replacement, for each placeholder in turn. -/
def cleanPlaceholders (sender : SenderCfg) (body : String) : String :=
  placeholders_to_remove.foldl (fun b p =>
    if hasInfixS (pyLower b) (pyLower p) then pyReplace b p (placeholderValue sender p)
    else b) body

/-- Line 172-173: drop whitespace-only non-empty lines, keep truly
empty ones, and strip the result. -/
def dropBlankLines (body : String) : String :=
  pyStrip (String.intercalate "\n"
    (((splitOnL ['\n'] body.toList).map String.mk).filter
      (fun line => pyStrip line ≠ "" || line = "")))

/-- GeminiAIService.generate_personalized_email (lines 30-205).
`geminiResp` models self.model.generate_content(prompt).text — the
response text, or the raised exception's message (the prompt of lines
66-120 is consumed only by that external collaborator, so it is not
materialized here).  recipient_email, website_data and email_purpose
likewise flow only into the prompt.  The except branch (lines
187-205) returns the fixed fallback record. -/
def generate_personalized_email (geminiResp : Except String String)
    (recipient_email company_name : String) (website_data : ScrapedData)
    (email_purpose : String) (sender_config : Option SenderCfg) : EmailContent :=
  match geminiResp with
  | .ok email_text =>
    let sender := sender_config.getD SENDER_CONFIG
    let st := parseEmailText email_text
    let body0 := pyStrip (String.intercalate "\n" st.body_lines)
    let body1 := cleanPlaceholders sender body0
    let body2 := dropBlankLines body1
    let subject := if st.subject = "" then
        "Quick thought about " ++ company_name ++ "\x27s growth"
      else st.subject
    let body3 := if body2 = "" then email_text else body2
    { subject := subject, body := body3, generated_successfully := true, error := none }
  | .error e =>
    let sender := sender_config.getD SENDER_CONFIG
    { subject := "Quick question about " ++ company_name
      body := "Hi,\n\nI came across " ++ company_name
        ++ " and was impressed by what you\x27re doing. I\x27d love to explore how we might work together.\n\nWould you be open to a brief conversation?\n\nBest regards,\n"
        ++ sender.sender_name.getD "Alex" ++ "\n"
        ++ sender.sender_title.getD "Founder" ++ "\n"
        ++ sender.company_name.getD "Our Company"
      generated_successfully := false
      error := some e }

/-! ## Claim C10: fallback on internal exception -/

/-- Claim C10: generate_personalized_email is total at its public
boundary — the embedding returns a record for every collaborator
outcome — and on an internal exception with message e it returns the
fallback record: generated_successfully false, subject
"Quick question about <company>", the fixed body ending with the
configured sender's name, title and company on its last three lines,
and e in the error field.  On a successful model call the flag is true
and the error absent. -/
theorem C10_generate_email_fallback (e recipient company purpose : String)
    (wd : ScrapedData) (cfg : Option SenderCfg) :
    generate_personalized_email (.error e) recipient company wd purpose cfg
      = { subject := "Quick question about " ++ company
          body := "Hi,\n\nI came across " ++ company
            ++ " and was impressed by what you\x27re doing. I\x27d love to explore how we might work together.\n\nWould you be open to a brief conversation?\n\nBest regards,\n"
            ++ (cfg.getD SENDER_CONFIG).sender_name.getD "Alex" ++ "\n"
            ++ (cfg.getD SENDER_CONFIG).sender_title.getD "Founder" ++ "\n"
            ++ (cfg.getD SENDER_CONFIG).company_name.getD "Our Company"
          generated_successfully := false
          error := some e } ∧
    (∀ t, (generate_personalized_email (.ok t) recipient company wd purpose
        cfg).generated_successfully = true ∧
      (generate_personalized_email (.ok t) recipient company wd purpose cfg).error
        = none) := by
  exact ⟨rfl, fun t => ⟨rfl, rfl⟩⟩
